import Mathlib

/-!
Verification of the outage state-tracking logic of the Kasa smart-plug
monitor (`src/main.py`).

The monitor keeps two mutable fields (`__init__`, lines 40-41):
`off_since : Option timestamp` and `alert_sent : Bool`.  Each iteration of
`monitor_loop` (lines 167-217) queries the plug (`get_plug_state`,
lines 69-76, returning `None` on any error), and then updates the state and
possibly attempts one email dispatch (lines 172-207).  We embed one loop
iteration as a pure function of the configured alert threshold, the current
state, the sampled value (`some true` = on, `some false` = off, `none` =
unknown), the current time, and a boolean `sendOk` saying whether the email
dispatch performed this iteration (if any) succeeds (`_send_email`,
lines 131-158, returns a Bool).  Timestamps are integers (seconds); the
Python code subtracts `datetime` values and compares the resulting seconds
against the threshold, and converts to minutes only for message formatting
(lines 178, 199), so carrying seconds is lossless.
-/

/-- State of the monitor: `off_since` (line 40) and `alert_sent` (line 41). -/
structure MonitorState where
  off_since : Option ℤ
  alert_sent : Bool
deriving DecidableEq

/-- Initial state set in `KasaMonitor.__init__` (lines 40-41). -/
def initState : MonitorState := ⟨none, false⟩

/-- A notification dispatch attempted by one loop iteration: an alert email
(`send_email_alert`, called at line 205, carrying the elapsed off-time) or a
recovery email (`send_recovery_email`, called at line 182, carrying the total
downtime).  Payloads are in seconds; the code divides by 60 for display. -/
inductive Event where
  | alertTriggered (elapsed : ℤ)
  | recoveryTriggered (downtime : ℤ)
deriving DecidableEq

/-- One iteration of the body of `monitor_loop` (lines 170-207), given the
sampled `is_on` value.  The returned list holds the notification dispatches
attempted this iteration, in order (each branch attempts at most one).
`sendOk` is the success value the email send would return this iteration:
on the recovery path (lines 176-187) the send result only gates a log line,
and the state is reset regardless; on the alert path (lines 204-207)
`alert_sent` is set only when the send succeeds (line 205-206). -/
def monitor_loop_step (threshold : ℤ) (sendOk : Bool) (s : MonitorState)
    (is_on : Option Bool) (now : ℤ) : MonitorState × List Event :=
  match is_on with
  | none =>
      -- lines 172-173: only a warning is logged
      (s, [])
  | some true =>
      -- lines 174-187: plug is on
      match s.off_since with
      | some off_since =>
          let total_downtime := now - off_since
          if s.alert_sent then
            (⟨none, false⟩, [Event.recoveryTriggered total_downtime])
          else
            (⟨none, false⟩, [])
      | none => (s, [])
  | some false =>
      -- lines 188-207: plug is off
      match s.off_since with
      | none =>
          -- lines 192-195: just turned off
          (⟨some now, s.alert_sent⟩, [])
      | some off_since =>
          -- lines 196-207: has been off for some time
          let time_off := now - off_since
          if threshold ≤ time_off ∧ s.alert_sent = false then
            if sendOk then
              (⟨some off_since, true⟩, [Event.alertTriggered time_off])
            else
              (⟨some off_since, s.alert_sent⟩, [Event.alertTriggered time_off])
          else
            (⟨some off_since, s.alert_sent⟩, [])

/-- Run the monitor over a list of `(sample, timestamp)` pairs, returning the
final state and, per iteration, the list of dispatch attempts. -/
def runMonitor (threshold : ℤ) (sendOk : Bool) (s : MonitorState) :
    List (Option Bool × ℤ) → MonitorState × List (List Event)
  | [] => (s, [])
  | (is_on, now) :: rest =>
      let r := monitor_loop_step threshold sendOk s is_on now
      let rr := runMonitor threshold sendOk r.1 rest
      (rr.1, r.2 :: rr.2)

/-- Embedding of `KasaMonitor.get_plug_state` (lines 69-76): the device query
either returns the on/off boolean or fails with some error; any error is
caught and mapped to `None` (the Unknown sample). -/
def get_plug_state {ε : Type} (r : Except ε Bool) : Option Bool :=
  match r with
  | Except.ok b => some b
  | Except.error _ => none

/-- A full loop iteration starting from the raw query outcome (line 170
followed by lines 172-207). -/
def monitor_iter {ε : Type} (threshold : ℤ) (sendOk : Bool) (s : MonitorState)
    (q : Except ε Bool) (now : ℤ) : MonitorState × List Event :=
  monitor_loop_step threshold sendOk s (get_plug_state q) now

/-- Run the loop over a list of raw query outcomes with timestamps: the `while
True` loop (lines 167-217) performs one iteration per poll, failed queries
included (the `except` at lines 215-217 keeps the loop going). -/
def run_monitor_iter {ε : Type} (threshold : ℤ) (sendOk : Bool) (s : MonitorState) :
    List (Except ε Bool × ℤ) → MonitorState × List (List Event)
  | [] => (s, [])
  | (q, now) :: rest =>
      let r := monitor_iter threshold sendOk s q now
      let rr := run_monitor_iter threshold sendOk r.1 rest
      (rr.1, r.2 :: rr.2)

/-- Whether an event is an alert dispatch. -/
def isAlert : Event → Bool
  | Event.alertTriggered _ => true
  | Event.recoveryTriggered _ => false

/-- Whether an event is a recovery dispatch. -/
def isRecovery : Event → Bool
  | Event.alertTriggered _ => false
  | Event.recoveryTriggered _ => true

/-- Number of alert dispatches in a per-iteration event history. -/
def countAlerts (evss : List (List Event)) : ℕ :=
  evss.flatten.countP isAlert

/-- Whether a sample is an Off sample whose elapsed time since the episode
start `a` meets the threshold (the inclusive comparison of line 204). -/
def offCrossing (threshold a : ℤ) (p : Option Bool × ℤ) : Bool :=
  p.1 == some false && decide (threshold ≤ p.2 - a)

/-- Invariant of the monitor state: `alert_sent` is true only while an
episode is active (`off_since` is set). -/
def monitor_inv (s : MonitorState) : Prop :=
  s.alert_sent = true → s.off_since.isSome = true

lemma countAlerts_nil : countAlerts [] = 0 := rfl

lemma countAlerts_cons (evs : List Event) (evss : List (List Event)) :
    countAlerts (evs :: evss) = evs.countP isAlert + countAlerts evss := by
  simp [countAlerts, List.countP_append]

lemma runMonitor_cons (thr : ℤ) (sendOk : Bool) (s : MonitorState) (x : Option Bool)
    (t : ℤ) (rest : List (Option Bool × ℤ)) :
    runMonitor thr sendOk s ((x, t) :: rest)
      = ((runMonitor thr sendOk (monitor_loop_step thr sendOk s x t).1 rest).1,
         (monitor_loop_step thr sendOk s x t).2
           :: (runMonitor thr sendOk (monitor_loop_step thr sendOk s x t).1 rest).2) := rfl

lemma step_unknown (thr : ℤ) (sendOk : Bool) (s : MonitorState) (now : ℤ) :
    monitor_loop_step thr sendOk s none now = (s, []) := rfl

lemma step_off_new (thr : ℤ) (sendOk b : Bool) (now : ℤ) :
    monitor_loop_step thr sendOk ⟨none, b⟩ (some false) now = (⟨some now, b⟩, []) := rfl

lemma step_off_cross (thr a now : ℤ) (hc : thr ≤ now - a) :
    monitor_loop_step thr true ⟨some a, false⟩ (some false) now
      = (⟨some a, true⟩, [Event.alertTriggered (now - a)]) := by
  simp [monitor_loop_step, hc]

lemma step_off_already (thr a now : ℤ) (sendOk : Bool) :
    monitor_loop_step thr sendOk ⟨some a, true⟩ (some false) now = (⟨some a, true⟩, []) := by
  simp [monitor_loop_step]

lemma step_off_nocross (thr a now : ℤ) (sendOk b : Bool) (hc : ¬ thr ≤ now - a) :
    monitor_loop_step thr sendOk ⟨some a, b⟩ (some false) now = (⟨some a, b⟩, []) := by
  simp [monitor_loop_step, hc]

lemma run_noOn (thr a : ℤ) (inputs : List (Option Bool × ℤ)) :
    ∀ b : Bool, (∀ p ∈ inputs, p.1 ≠ some true) →
    (runMonitor thr true ⟨some a, b⟩ inputs).1
        = ⟨some a, b || inputs.any (offCrossing thr a)⟩ ∧
    countAlerts (runMonitor thr true ⟨some a, b⟩ inputs).2
        = if b then 0 else if inputs.any (offCrossing thr a) then 1 else 0 := by
  induction inputs with
  | nil => intro b h; simp [runMonitor, countAlerts]
  | cons p rest ih =>
    intro b h
    obtain ⟨is_on, t⟩ := p
    have hp : is_on ≠ some true := h (is_on, t) (List.mem_cons_self _ _)
    have hrest : ∀ q ∈ rest, q.1 ≠ some true := fun q hq => h q (List.mem_cons_of_mem _ hq)
    cases is_on with
    | none =>
      have hih := ih b hrest
      have hh : ((none, t) :: rest).any (offCrossing thr a) = rest.any (offCrossing thr a) := by
        rw [List.any_cons]; simp [offCrossing]
      rw [runMonitor_cons, step_unknown, hh]
      refine ⟨?_, ?_⟩
      · rw [hih.1]
      · rw [countAlerts_cons, hih.2]; simp
    | some v =>
      cases v with
      | true => exact absurd rfl hp
      | false =>
        by_cases hc : thr ≤ t - a
        · have hh : ((some false, t) :: rest).any (offCrossing thr a) = true := by
            rw [List.any_cons]; simp [offCrossing, hc]
          cases b with
          | false =>
            have hih := ih true hrest
            rw [runMonitor_cons, step_off_cross thr a t hc, hh]
            refine ⟨?_, ?_⟩
            · rw [hih.1]; simp
            · rw [countAlerts_cons, hih.2]; simp [isAlert, List.countP_cons]
          | true =>
            have hih := ih true hrest
            rw [runMonitor_cons, step_off_already thr a t true, hh]
            refine ⟨?_, ?_⟩
            · rw [hih.1]; simp
            · rw [countAlerts_cons, hih.2]; simp
        · have hh : ((some false, t) :: rest).any (offCrossing thr a) = rest.any (offCrossing thr a) := by
            rw [List.any_cons]; simp [offCrossing, hc]
          have hih := ih b hrest
          rw [runMonitor_cons, step_off_nocross thr a t true b hc, hh]
          refine ⟨?_, ?_⟩
          · rw [hih.1]
          · rw [countAlerts_cons, hih.2]; simp

lemma run_allOn (thr : ℤ) (sendOk b : Bool) (ts : List ℤ) :
    runMonitor thr sendOk ⟨none, b⟩ (ts.map fun t => (some true, t))
      = (⟨none, b⟩, ts.map fun _ => ([] : List Event)) := by
  induction ts with
  | nil => rfl
  | cons t rest ih => simp [runMonitor, monitor_loop_step, ih]

lemma run_monitor_iter_length {ε : Type} (thr : ℤ) (sendOk : Bool) :
    ∀ (s : MonitorState) (trace : List (Except ε Bool × ℤ)),
    ((run_monitor_iter thr sendOk s trace).2).length = trace.length := by
  intro s trace
  induction trace generalizing s with
  | nil => rfl
  | cons p rest ih =>
    obtain ⟨q, now⟩ := p
    simp [run_monitor_iter, ih]

/-- C1: within a single outage episode — the episode-creating Off sample at
time `a` (taken while no episode is active, i.e. from the initial state)
followed by in-episode samples none of which is On — at most one alert
dispatch occurs, and exactly one occurs iff some Off sample of the episode has
elapsed time (its time minus the episode start `a`) at least the threshold.
The notifier is assumed to succeed (`sendOk = true`, the spec's pure-tracker
reading); the configuration requires a positive threshold. -/
theorem C1_alert_once_per_episode (thr a : ℤ) (inputs : List (Option Bool × ℤ))
    (hthr : 0 < thr) (hnoOn : ∀ p ∈ inputs, p.1 ≠ some true) :
    countAlerts (runMonitor thr true initState ((some false, a) :: inputs)).2 ≤ 1 ∧
    (countAlerts (runMonitor thr true initState ((some false, a) :: inputs)).2 = 1 ↔
      ∃ p ∈ (some false, a) :: inputs, p.1 = some false ∧ thr ≤ p.2 - a) := by
  have hstep : monitor_loop_step thr true initState (some false) a
      = (⟨some a, false⟩, []) := rfl
  have hrun := run_noOn thr a inputs false hnoOn
  have hcount : countAlerts (runMonitor thr true initState ((some false, a) :: inputs)).2
      = if inputs.any (offCrossing thr a) then 1 else 0 := by
    rw [runMonitor_cons, hstep, countAlerts_cons, hrun.2]
    simp
  have hex : inputs.any (offCrossing thr a) = true ↔
      ∃ p ∈ inputs, p.1 = some false ∧ thr ≤ p.2 - a := by
    rw [List.any_eq_true]
    constructor
    · rintro ⟨p, hm, hcr⟩
      refine ⟨p, hm, ?_⟩
      simpa [offCrossing] using hcr
    · rintro ⟨p, hm, h1, h2⟩
      exact ⟨p, hm, by simp [offCrossing, h1, h2]⟩
  have hcons : (∃ p ∈ (some false, a) :: inputs, p.1 = some false ∧ thr ≤ p.2 - a) ↔
      ∃ p ∈ inputs, p.1 = some false ∧ thr ≤ p.2 - a := by
    constructor
    · rintro ⟨p, hm, hp1, hp2⟩
      rcases List.mem_cons.mp hm with hh | hh
      · subst hh
        exact absurd hp2 (by simpa using by omega)
      · exact ⟨p, hh, hp1, hp2⟩
    · rintro ⟨p, hm, hp⟩
      exact ⟨p, List.mem_cons_of_mem _ hm, hp⟩
  rw [hcount, hcons, ← hex]
  cases hA : inputs.any (offCrossing thr a) <;> simp [hA]

/-- Witness for C1: threshold 300, episode start 0, one further Off sample at
time 300 crossing the threshold. -/
theorem C1_alert_once_per_episode_witness :
    countAlerts (runMonitor 300 true initState [(some false, 0), (some false, 300)]).2 ≤ 1 ∧
    (countAlerts (runMonitor 300 true initState [(some false, 0), (some false, 300)]).2 = 1 ↔
      ∃ p ∈ [((some false : Option Bool), (0 : ℤ)), (some false, 300)],
        p.1 = some false ∧ (300 : ℤ) ≤ p.2 - 0) :=
  C1_alert_once_per_episode 300 0 [(some false, 300)] (by decide) (by decide)

/-- C2: a recovery dispatch happens in an iteration iff an On sample closes an
episode whose `alert_sent` is true, and it carries downtime `now` minus the
episode's start; Scenario C (Off at 0, threshold 300, alert at 300, On at 360)
yields exactly one recovery, with downtime 360 seconds. -/
theorem C2_recovery_iff :
    (∀ (thr : ℤ) (sendOk : Bool) (s : MonitorState) (is_on : Option Bool) (now d : ℤ),
      Event.recoveryTriggered d ∈ (monitor_loop_step thr sendOk s is_on now).2 ↔
        is_on = some true ∧ s.alert_sent = true ∧
          ∃ a, s.off_since = some a ∧ d = now - a) ∧
    runMonitor 300 true initState [(some false, 0), (some false, 300), (some true, 360)]
      = (⟨none, false⟩, [[], [Event.alertTriggered 300], [Event.recoveryTriggered 360]]) := by
  constructor
  · intro thr sendOk s is_on now d
    obtain ⟨os, al⟩ := s
    cases is_on with
    | none => simp [monitor_loop_step]
    | some v =>
      cases v with
      | true =>
        cases os with
        | none => simp [monitor_loop_step]
        | some a0 => cases al <;> simp [monitor_loop_step]
      | false =>
        cases os with
        | none => simp [monitor_loop_step]
        | some a0 =>
          cases al with
          | true => simp [monitor_loop_step]
          | false =>
            by_cases hc : thr ≤ now - a0 <;> cases sendOk <;>
              simp [monitor_loop_step, hc]
  · decide

/-- C3 counterexample: at threshold 300, from the state (off since 0, no alert
sent) with an Off sample at time 300, the alert dispatch is attempted both
ways, but the post-iteration state depends on dispatch success — a failed
dispatch leaves `alert_sent = false` (line 205-206 sets it only when
`send_email_alert` returns True), and the same alert is then dispatched again
at the next Off poll (time 360). -/
theorem C3_counterexample :
    (monitor_loop_step 300 true ⟨some 0, false⟩ (some false) 300).1 = ⟨some 0, true⟩ ∧
    (monitor_loop_step 300 false ⟨some 0, false⟩ (some false) 300).1 = ⟨some 0, false⟩ ∧
    (monitor_loop_step 300 false ⟨some 0, false⟩ (some false) 300).2
      = [Event.alertTriggered 300] ∧
    (monitor_loop_step 300 false
        (monitor_loop_step 300 false ⟨some 0, false⟩ (some false) 300).1
        (some false) 360).2 = [Event.alertTriggered 360] := by decide

/-- C3 amended: dispatch failure does not affect the state transition for
recovery events (the episode is cleared and `alert_sent` reset regardless of
the send result) nor for Unknown samples, but for alert events a failed
dispatch leaves the state unchanged (`alert_sent` stays false), so the alert
is re-dispatched on the next qualifying Off poll; a successful dispatch sets
`alert_sent`. -/
theorem C3_amended_dispatch_effect (thr a now : ℤ) (h : thr ≤ now - a) :
    monitor_loop_step thr false ⟨some a, false⟩ (some false) now
      = (⟨some a, false⟩, [Event.alertTriggered (now - a)]) ∧
    monitor_loop_step thr true ⟨some a, false⟩ (some false) now
      = (⟨some a, true⟩, [Event.alertTriggered (now - a)]) ∧
    (∀ (sendOk : Bool) (s : MonitorState) (t : ℤ),
      monitor_loop_step thr sendOk s (some true) t
        = monitor_loop_step thr true s (some true) t) ∧
    (∀ (sendOk : Bool) (s : MonitorState) (t : ℤ),
      monitor_loop_step thr sendOk s none t = monitor_loop_step thr true s none t) := by
  refine ⟨?_, ?_, fun sendOk s t => rfl, fun sendOk s t => rfl⟩
  · simp [monitor_loop_step, h]
  · simp [monitor_loop_step, h]

/-- Witness for the amended C3 at threshold 300, episode start 0, Off sample
at time 300. -/
theorem C3_amended_dispatch_effect_witness :
    monitor_loop_step 300 false ⟨some 0, false⟩ (some false) 300
      = (⟨some 0, false⟩, [Event.alertTriggered (300 - 0)]) :=
  (C3_amended_dispatch_effect 300 0 300 (by decide)).1

/-- C4: an Unknown sample (`is_on = None`, lines 172-173) is a no-op on the
internal state in every tracker state, active episode or not; Scenario D
(Off at 0, Unknown at 60..240, Off at 300, threshold 300) dispatches the alert
at time 300 with elapsed time 300, computed from the original episode start. -/
theorem C4_unknown_noop :
    (∀ (thr : ℤ) (sendOk : Bool) (s : MonitorState) (now : ℤ),
      monitor_loop_step thr sendOk s none now = (s, [])) ∧
    runMonitor 300 true initState
      [(some false, 0), (none, 60), (none, 120), (none, 180), (none, 240), (some false, 300)]
      = (⟨some 0, true⟩, [[], [], [], [], [], [Event.alertTriggered 300]]) :=
  ⟨fun thr sendOk s now => rfl, by decide⟩

/-- C5: Scenario A — threshold 300, Off samples at times 0, 60, 120, 180, 240,
300: exactly one alert is dispatched, at the time-300 sample, with elapsed
time 300 (the comparison at line 204 is inclusive). -/
theorem C5_scenario_a_inclusive_threshold :
    runMonitor 300 true initState
      [(some false, 0), (some false, 60), (some false, 120),
       (some false, 180), (some false, 240), (some false, 300)]
      = (⟨some 0, true⟩, [[], [], [], [], [], [Event.alertTriggered 300]]) := by decide

/-- C6: a failed device query is mapped to the Unknown sample by
`get_plug_state` (lines 74-76) rather than propagated; an iteration whose
query failed leaves the state unchanged and dispatches nothing; and the loop
performs one iteration per poll of any trace, failed queries included (the
handler at lines 215-217 keeps the loop alive). -/
theorem C6_failure_containment :
    (∀ (ε : Type) (e : ε), get_plug_state (Except.error e) = (none : Option Bool)) ∧
    (∀ (ε : Type) (thr : ℤ) (sendOk : Bool) (s : MonitorState) (e : ε) (now : ℤ),
      monitor_iter thr sendOk s (Except.error e) now = (s, [])) ∧
    (∀ (ε : Type) (thr : ℤ) (sendOk : Bool) (s : MonitorState)
        (trace : List (Except ε Bool × ℤ)),
      ((run_monitor_iter thr sendOk s trace).2).length = trace.length) :=
  ⟨fun ε e => rfl, fun ε thr sendOk s e now => rfl,
   fun ε thr sendOk s trace => run_monitor_iter_length thr sendOk s trace⟩

/-- C7: an On sample with no active episode leaves the state unchanged and
dispatches nothing; an On sample with an active episode closes it, leaving
`(none, false)` and dispatching a recovery only if `alert_sent` was true; so
any run of On samples from an episode-free state dispatches nothing and never
re-dispatches a recovery. -/
theorem C7_on_idempotent :
    (∀ (thr : ℤ) (sendOk b : Bool) (now : ℤ),
      monitor_loop_step thr sendOk ⟨none, b⟩ (some true) now = (⟨none, b⟩, [])) ∧
    (∀ (thr : ℤ) (sendOk : Bool) (a : ℤ) (b : Bool) (now : ℤ),
      monitor_loop_step thr sendOk ⟨some a, b⟩ (some true) now
        = (⟨none, false⟩, if b then [Event.recoveryTriggered (now - a)] else [])) ∧
    (∀ (thr : ℤ) (sendOk b : Bool) (ts : List ℤ),
      runMonitor thr sendOk ⟨none, b⟩ (ts.map fun t => (some true, t))
        = (⟨none, b⟩, ts.map fun _ => ([] : List Event))) := by
  refine ⟨fun thr sendOk b now => rfl, ?_,
    fun thr sendOk b ts => run_allOn thr sendOk b ts⟩
  intro thr sendOk a b now
  cases b <;> simp [monitor_loop_step]

/-- C8: every single iteration dispatches zero or one notification — never an
alert and a recovery in the same step, in any state and for any sample. -/
theorem C8_at_most_one_event_per_sample :
    ∀ (thr : ℤ) (sendOk : Bool) (s : MonitorState) (is_on : Option Bool) (now : ℤ),
      ((monitor_loop_step thr sendOk s is_on now).2).length ≤ 1 ∧
      ((monitor_loop_step thr sendOk s is_on now).2).countP isAlert
        + ((monitor_loop_step thr sendOk s is_on now).2).countP isRecovery ≤ 1 := by
  intro thr sendOk s is_on now
  obtain ⟨os, al⟩ := s
  cases is_on with
  | none => simp [monitor_loop_step]
  | some v =>
    cases v with
    | true =>
      cases os with
      | none => simp [monitor_loop_step]
      | some a0 =>
        cases al <;>
          simp [monitor_loop_step, isAlert, isRecovery, List.countP_cons, List.countP_nil]
    | false =>
      cases os with
      | none => simp [monitor_loop_step]
      | some a0 =>
        cases al with
        | true => simp [monitor_loop_step]
        | false =>
          by_cases hc : thr ≤ now - a0
          · cases sendOk <;>
              simp [monitor_loop_step, hc, isAlert, isRecovery,
                List.countP_cons, List.countP_nil]
          · simp [monitor_loop_step, hc]

/-- C9: the invariant that `alert_sent = true` only while an episode is active
(`off_since` set) holds in the initial state and is preserved by every loop
iteration, for any sample, threshold and dispatch outcome. -/
theorem C9_alert_implies_episode :
    monitor_inv initState ∧
    ∀ (thr : ℤ) (sendOk : Bool) (s : MonitorState) (is_on : Option Bool) (now : ℤ),
      monitor_inv s → monitor_inv (monitor_loop_step thr sendOk s is_on now).1 := by
  constructor
  · intro h
    simp [initState] at h
  · intro thr sendOk s is_on now hs
    obtain ⟨os, al⟩ := s
    cases is_on with
    | none => exact hs
    | some v =>
      cases v with
      | true =>
        cases os with
        | none => exact hs
        | some a0 => cases al <;> simp [monitor_loop_step, monitor_inv]
      | false =>
        cases os with
        | none => simp [monitor_loop_step, monitor_inv]
        | some a0 =>
          by_cases hc : thr ≤ now - a0 <;> cases al <;> cases sendOk <;>
            simp [monitor_loop_step, monitor_inv, hc]

/-- Witness for C9: one Off iteration from the initial state, whose invariant
hypothesis is discharged by computation. -/
theorem C9_alert_implies_episode_witness :
    monitor_inv (monitor_loop_step 300 true initState (some false) 0).1 :=
  C9_alert_implies_episode.2 300 true initState (some false) 0
    (by intro h; simp [initState] at h)

/-- C10: the Off sample that creates an episode (taken while `off_since` is
None, lines 192-195) dispatches nothing, for every threshold — the threshold
comparison (line 204) runs only when an episode already exists, so an alert
can fire no earlier than the second Off sample of an episode. -/
theorem C10_episode_creation_emits_nothing :
    ∀ (thr : ℤ) (sendOk b : Bool) (now : ℤ),
      monitor_loop_step thr sendOk ⟨none, b⟩ (some false) now = (⟨some now, b⟩, []) :=
  fun thr sendOk b now => rfl
